import Mathlib

/-!
Shallow embedding of the voice-design API repository (client.py, server.py).

The client (`VoiceDesignClient`) and the server endpoint are embedded as pure
Lean functions.  Effects are made explicit:

* the outcome of the HTTP POST issued by the client is an oracle value of type
  `NetOutcome`: a timeout or connection-level failure before the status line
  arrives, or a final status code together with the fate of the lazily
  fetched body stream (`BodyStream`: delivered completely, or broken
  mid-transfer with only a partial prefix received);
* the current `int(time.time())` is an explicit `now : Nat` argument;
* the filesystem is a map `FS` from path strings to file sizes; writing the
  response body to the output file is a pointwise update of this map;
* whether the client actually issued the HTTP request is returned as an
  explicit `Bool`, so "fails before any network call" is a provable statement.

Python string primitives used by the code (`str.strip`, `str.isalnum`,
slicing, `pathlib.Path.suffix`, `str.lower`) are embedded below over
`List Char`.  `pyIsSpace` covers the ASCII whitespace characters that Python's
`str.strip` removes, and `pyIsAlnum` covers ASCII alphanumerics plus the CJK
unified-ideograph block (the fragment of Python's Unicode `str.isalnum`
relevant to this repository); both claim-side and code-side statements use the
same predicates, so no claim below turns on the remainder of Unicode.
-/

/-- ASCII whitespace, as stripped by Python's `str.strip()`. -/
def pyIsSpace (c : Char) : Bool :=
  c = ' ' || c = '\t' || c = '\n' || c = '\r' || c.toNat = 11 || c.toNat = 12

/-- Python `str.strip()`: drop leading and trailing whitespace. -/
def pyStrip (s : String) : String :=
  String.mk (((s.data.dropWhile pyIsSpace).reverse.dropWhile pyIsSpace).reverse)

/-- Python `str.isalnum()` restricted to ASCII alphanumerics and CJK unified
ideographs. -/
def pyIsAlnum (c : Char) : Bool :=
  c.isAlphanum || (0x4E00 ≤ c.toNat && c.toNat ≤ 0x9FFF)

/-- Python `s[:n]`: the first `n` characters. -/
def pyTake (n : Nat) (s : String) : String :=
  String.mk (s.data.take n)

/-- Python `str.lower()` (ASCII case folding). -/
def pyLower (s : String) : String :=
  String.mk (s.data.map Char.toLower)

/-- The final path component, as `pathlib.PurePath.name`. -/
def pyBasename (p : String) : String :=
  String.mk ((p.data.reverse.takeWhile (fun c => c ≠ '/')).reverse)

/-- `pathlib.PurePath.suffix`: `name[i:]` where `i` is the index of the last
dot of the final component, provided `0 < i < len(name) - 1`; `""` otherwise. -/
def pySuffix (p : String) : String :=
  let name := (pyBasename p).data
  let tail := name.reverse.takeWhile (fun c => c ≠ '.')
  if tail.length + 1 ≤ name.length && 1 ≤ tail.length
      && 1 ≤ name.length - tail.length - 1 then
    String.mk ('.' :: tail.reverse)
  else
    ""

/-- `s` contains `sub` as a contiguous substring. -/
def containsStr (s sub : String) : Prop :=
  ∃ l r, s = l ++ sub ++ r

/-- The filesystem, as a map from path to file size in bytes
(`none` = no file at that path). -/
def FS : Type := String → Option Nat

/-- With `stream=True` the response body is fetched lazily, *after* the
status line and headers: either the whole body arrives, or the transfer
fails partway (a read timeout or connection reset mid-stream, which
`requests.iter_content` surfaces as a `requests.ConnectionError` /
`ChunkedEncodingError` — a `RequestException` that is not a `Timeout` and
not an `HTTPError`), leaving only the bytes received so far. -/
inductive BodyStream where
  | complete (body : String)
  | failed (partialBody : String) (msg : String)
  deriving DecidableEq

/-- The bytes of the stream available to a reader that consumes it
(`response.text` on a complete stream is the body; a broken stream only ever
delivered its partial prefix). -/
def BodyStream.text : BodyStream → String
  | .complete body => body
  | .failed partialBody _ => partialBody

/-- Outcome of the client's HTTP POST, as observed through `requests`:
a timeout or connection-level failure while connecting / awaiting the
status line and headers (raised by `requests.post` itself, before any file
is opened), or a final status code together with the body stream's fate
(delivered lazily, see `BodyStream`). -/
inductive NetOutcome where
  | timeout
  | connError (msg : String)
  | response (status : Nat) (stream : BodyStream)
  deriving DecidableEq

/-- The exceptions `generate_audio` can raise: `ValueError` (validation and
translated 500s), `requests.Timeout`, `requests.HTTPError` (re-raised with its
response), other `requests.RequestException`s. -/
inductive GenError where
  | valueError (msg : String)
  | timeoutError
  | httpError (status : Nat) (body : String)
  | requestError (msg : String)
  deriving DecidableEq

/-- Python `str(e)` for the exceptions of `GenError`, as interpolated into
`f"ERROR: {e}"` by `batch_generate`. -/
def genErrorStr : GenError → String
  | .valueError m => m
  | .timeoutError => "timeout"
  | .httpError s _ => "HTTP error " ++ toString s
  | .requestError m => m

deriving instance DecidableEq for Except

namespace Client

/-- The characters kept by the filename sanitizer:
`c.isalnum() or c in " _-"`. -/
def sanitizeKeep (c : Char) : Bool :=
  pyIsAlnum c || c = ' ' || c = '_' || c = '-'

/-- `safe_text` of `VoiceDesignClient.generate_audio`:
`"".join(c for c in text[:20] if c.isalnum() or c in " _-").strip()`. -/
def safeText (text : String) : String :=
  pyStrip (String.mk ((text.data.take 20).filter sanitizeKeep))

/-- The auto-generated output filename of `VoiceDesignClient.generate_audio`
(the `output_file is None` branch). -/
def defaultFilename (now : Nat) (auto_timestamp : Bool) (text : String) : String :=
  let timestamp := if auto_timestamp then toString now else ""
  let st := safeText text
  if st ≠ "" then "voice_" ++ timestamp ++ "_" ++ st ++ ".wav"
  else "voice_" ++ timestamp ++ ".wav"

/-- The filename derivation exactly as the claim words it: a timestamp and
the first 20 characters of the text filtered to alphanumeric, space,
underscore and hyphen — with no whitespace strip — and the timestamp alone
when that filtered prefix is empty.  Used only to compare against the
code's `defaultFilename`, which additionally strips the filtered prefix. -/
def claimFilename (now : Nat) (text : String) : String :=
  let st := String.mk ((text.data.take 20).filter sanitizeKeep)
  if st ≠ "" then "voice_" ++ toString now ++ "_" ++ st ++ ".wav"
  else "voice_" ++ toString now ++ ".wav"

/-- The destination path used by `generate_audio`: the given `output_file`,
or the auto-generated filename when it is omitted. -/
def outputPath (now : Nat) (auto_timestamp : Bool) (text : String)
    (output_file : Option String) : String :=
  match output_file with
  | some f => f
  | none => defaultFilename now auto_timestamp text

/-- `VoiceDesignClient.generate_audio`.  `net` is the outcome of the HTTP
POST, `now` the current `int(time.time())`, `fs` the filesystem before the
call.  Returns the Python outcome (`Except`: the raised exception or the
returned path), whether the HTTP POST was issued, and the filesystem after
the call.

Validation runs first (`text.strip()`, `instruct.strip()`); then the output
filename is chosen; then the POST is issued with `stream=True`, so
`requests.post` returns after the status line and headers.
`raise_for_status` raises `requests.HTTPError` exactly for status codes in
[400, 600), *before* the output file is opened: a 500 is translated to
`ValueError(f"音频生成失败: {response.text}")` — reading `response.text` on a
mid-stream-broken 500 response itself raises the underlying
`RequestException`, re-raised by the final `except` — and every other
`HTTPError` is re-raised unchanged (the `HTTPError` carries the response; the
`body` payload of `GenError.httpError` records the stream's available text).
For a non-error status the file is opened (created) at the destination and
`iter_content` is consumed: a complete stream writes the whole body and the
path is returned; a mid-stream failure raises a `RequestException` through
the `except requests.RequestException` arm with the partial bytes already
written to the (now existing) file. -/
def generate_audio (net : NetOutcome) (now : Nat)
    (text language instruct : String) (output_file : Option String)
    (auto_timestamp : Bool) (fs : FS) : Except GenError String × Bool × FS :=
  let _ := language
  if pyStrip text = "" then
    (.error (.valueError "文本内容不能为空"), false, fs)
  else if pyStrip instruct = "" then
    (.error (.valueError "语音指令不能为空"), false, fs)
  else
    let out := outputPath now auto_timestamp text output_file
    match net with
    | .timeout => (.error .timeoutError, true, fs)
    | .connError m => (.error (.requestError m), true, fs)
    | .response status stream =>
        if 400 ≤ status && status < 600 then
          if status = 500 then
            match stream with
            | .complete body =>
                (.error (.valueError ("音频生成失败: " ++ body)), true, fs)
            | .failed _ msg => (.error (.requestError msg), true, fs)
          else
            (.error (.httpError status stream.text), true, fs)
        else
          match stream with
          | .complete body =>
              (.ok out, true,
                fun p => if p = out then some body.length else fs p)
          | .failed partialBody msg =>
              (.error (.requestError msg), true,
                fun p => if p = out then some partialBody.length else fs p)

end Client

namespace Client

/-- One element of `texts_and_settings` in `VoiceDesignClient.batch_generate`:
a dict with the defaults applied by `item.get` (missing `"text"` means `""`,
missing `"language"` means `"Chinese"`, missing `"instruct"` means
`"温柔的女声"`, missing `"filename"` means none). -/
structure BatchItem where
  text : String
  language : String
  instruct : String
  filename : Option String
  deriving DecidableEq

/-- Python dict assignment `d[k] = v`: update in place when the key is
present, append otherwise (dicts preserve insertion order). -/
def dictInsert (d : List (String × String)) (k v : String) :
    List (String × String) :=
  if d.any (fun p => p.1 = k) then
    d.map (fun p => if p.1 = k then (k, v) else p)
  else
    d ++ [(k, v)]

/-- The key under which `batch_generate` records an item's outcome:
`text[:30] + "..."`. -/
def batchKey (item : BatchItem) : String :=
  pyTake 30 item.text ++ "..."

/-- The `output_file` argument `batch_generate` passes to `generate_audio`:
`str(output_path / custom_filename) if custom_filename else None`
(an empty custom filename is falsy in Python and also yields `None`). -/
def itemOutputFile (output_dir : String) (item : BatchItem) : Option String :=
  match item.filename with
  | some f => if f ≠ "" then some (output_dir ++ "/" ++ f) else none
  | none => none

/-- The value `batch_generate` records for one item: the returned path on
success, `f"ERROR: {e}"` when `generate_audio` raised `e`.  The outcome of
`generate_audio` does not depend on the filesystem, so it is evaluated here
on the empty filesystem. -/
def itemValue (net : NetOutcome) (now : Nat) (output_dir : String)
    (item : BatchItem) : String :=
  match (generate_audio net now item.text item.language item.instruct
      (itemOutputFile output_dir item) true (fun _ => none)).1 with
  | .ok p => p
  | .error e => "ERROR: " ++ genErrorStr e

/-- The loop body of `VoiceDesignClient.batch_generate`: `i` is the current
0-based position (the `i`-th call sees POST outcome `nets i` at time
`nows i`), `results` the dict built so far. -/
def batchLoop (nets : Nat → NetOutcome) (nows : Nat → Nat)
    (output_dir : String) :
    Nat → List BatchItem → List (String × String) → FS →
    List (String × String) × FS
  | _, [], results, fs => (results, fs)
  | i, item :: rest, results, fs =>
      let r := generate_audio (nets i) (nows i) item.text item.language
        item.instruct (itemOutputFile output_dir item) true fs
      let value := match r.1 with
        | .ok p => p
        | .error e => "ERROR: " ++ genErrorStr e
      batchLoop nets nows output_dir (i + 1) rest
        (dictInsert results (batchKey item) value) r.2.2

/-- `VoiceDesignClient.batch_generate`: iterate the items in order, catching
every per-item exception and recording `f"ERROR: {e}"` for it, and return the
results dict together with the final filesystem. -/
def batch_generate (nets : Nat → NetOutcome) (nows : Nat → Nat)
    (texts_and_settings : List BatchItem) (output_dir : String) (fs : FS) :
    List (String × String) × FS :=
  batchLoop nets nows output_dir 0 texts_and_settings [] fs

/-- The entry the loop of `batch_generate` contributes for each item, in
order: the `i`-th item is recorded under key `text[:30] + "..."` with its own
outcome (path or error tag) as value. -/
def expectedResults (nets : Nat → NetOutcome) (nows : Nat → Nat)
    (output_dir : String) : Nat → List BatchItem → List (String × String)
  | _, [] => []
  | i, item :: rest =>
      (batchKey item, itemValue (nets i) (nows i) output_dir item) ::
        expectedResults nets nows output_dir (i + 1) rest

/-- A direct child of the scanned directory, as yielded by
`Path(directory).glob("*")`: its path string and whether it is a regular file
(`Path.is_file()`).  `glob("*")` does not descend into subdirectories, so the
entry list holds the direct children only; a subdirectory appears as an entry
with `isFile = false` and its contents do not appear at all. -/
structure FSEntry where
  path : String
  isFile : Bool
  deriving DecidableEq

/-- The audio extension allow-list of `list_audio_files`. -/
def audioExtensions : List String := [".wav", ".mp3", ".flac", ".ogg", ".m4a"]

/-- `VoiceDesignClient.list_audio_files`: keep the regular files whose
lower-cased `Path.suffix` is in the allow-list, and return them sorted
(`sorted` on strings is lexicographic code-point order). -/
def list_audio_files (entries : List FSEntry) : List String :=
  List.insertionSort (· ≤ ·)
    ((entries.filter (fun e =>
        e.isFile && decide (pyLower (pySuffix e.path) ∈ audioExtensions))).map
      (fun e => e.path))

end Client

namespace Server

/-- The endpoint's response: a streamed WAV body, or an HTTP error status
with a `detail` string in the response body (FastAPI's `HTTPException`). -/
inductive Resp where
  | stream (bytes : List Nat)
  | error (status : Nat) (detail : String)
  deriving DecidableEq

/-- `str(e)` for a `starlette.exceptions.HTTPException`:
`f"{status_code}: {detail}"`. -/
def strHTTPException (status : Nat) (detail : String) : String :=
  toString status ++ ": " ++ detail

/-- The `POST /generate_audio` endpoint of server.py.  `modelLoaded` is
whether the module-level `model` is initialized; `invoke` is the outcome of
`model.generate_voice_design(...)` followed by the `sf.write` WAV encoding
(the raised exception's `str(e)`, or the WAV bytes).  The `model is None`
check raises `HTTPException(500, "模型未加载")` *inside* the `try`, so it is
caught by `except Exception` like any other error and re-wrapped as
`HTTPException(500, f"音频生成失败: {str(e)}")`. -/
def generate_audio (modelLoaded : Bool)
    (invoke : String → String → String → Except String (List Nat))
    (text language instruct : String) : Resp :=
  if !modelLoaded then
    .error 500 ("音频生成失败: " ++ strHTTPException 500 "模型未加载")
  else
    match invoke text language instruct with
    | .ok bytes => .stream bytes
    | .error msg => .error 500 ("音频生成失败: " ++ msg)

end Server

-- sanity checks on concrete inputs
example :
    (Client.generate_audio (.response 200 (.complete "abc")) 7 "hi" "Chinese" "v" none true
      (fun _ => none)).1 = .ok "voice_7_hi.wav" := by decide

example :
    (Client.generate_audio (.response 200 (.complete "abc")) 7 "" "Chinese" "v" none true
      (fun _ => none)).2.1 = false := by decide

example :
    (Client.generate_audio (.response 500 (.complete "model error: X")) 7 "hi" "Chinese" "v"
      none true (fun _ => none)).1
      = .error (.valueError "音频生成失败: model error: X") := by decide

example : pySuffix "dir/a.WAV" = ".WAV" := by decide
example : pySuffix ".wav" = "" := by decide
example : pySuffix "a." = "" := by decide
example : pyLower ".WAV" = ".wav" := by decide
example : Client.safeText " a" = "a" := by decide

example :
    (Client.batch_generate (fun _ => .timeout) (fun _ => 0)
      [⟨"a", "Chinese", "温柔的女声", none⟩, ⟨"a", "Chinese", "温柔的女声", none⟩]
      "out" (fun _ => none)).1
      = [("a...", "ERROR: timeout")] := by decide

example :
    ([⟨"d/b.WAV", true⟩, ⟨"d/a.mp3", true⟩, ⟨"d/c.txt", true⟩,
        (⟨"d/x.wav", false⟩ : Client.FSEntry)].filter (fun e =>
        e.isFile && decide (pyLower (pySuffix e.path) ∈ Client.audioExtensions))).map
      (fun e => e.path) = ["d/b.WAV", "d/a.mp3"] := by decide

example :
    Server.generate_audio false (fun _ _ _ => .ok [1]) "t" "Chinese" "i"
      = .error 500 "音频生成失败: 500: 模型未加载" := by decide

example :
    Server.generate_audio true (fun _ _ _ => .error "boom") "t" "Chinese" "i"
      = .error 500 "音频生成失败: boom" := by decide

/-! ### Helper lemmas -/

theorem pyStrip_eq_empty_of_all_space {s : String}
    (h : s.data.all pyIsSpace = true) : pyStrip s = "" := by
  unfold pyStrip
  have h1 : s.data.dropWhile pyIsSpace = [] :=
    List.dropWhile_eq_nil_iff.mpr (fun x hx => List.all_eq_true.mp h x hx)
  rw [h1]
  rfl

/-! ### C3: empty text or instruct fails validation before any request -/

/-- C3: if `text` or `instruct` is the empty string, `generate_audio` raises
a `ValueError` (validation error) and the HTTP POST is never issued. -/
theorem generate_audio_empty_input_validates (net : NetOutcome) (now : Nat)
    (text language instruct : String) (output_file : Option String)
    (auto_timestamp : Bool) (fs : FS) (h : text = "" ∨ instruct = "") :
    (∃ m, (Client.generate_audio net now text language instruct output_file
        auto_timestamp fs).1 = .error (.valueError m))
    ∧ (Client.generate_audio net now text language instruct output_file
        auto_timestamp fs).2.1 = false := by
  unfold Client.generate_audio
  rcases h with h | h <;> subst h <;> split_ifs with h1 h2
  · exact ⟨⟨_, rfl⟩, rfl⟩
  · exact absurd rfl h1
  · exact absurd rfl h1
  · exact ⟨⟨_, rfl⟩, rfl⟩
  · exact ⟨⟨_, rfl⟩, rfl⟩
  · exact absurd rfl h2

theorem generate_audio_empty_input_validates_witness :
    (("" : String) = "" ∨ ("温柔的女声" : String) = "")
    ∧ ((∃ m, (Client.generate_audio (.response 200 (.complete "abc")) 3 "" "Chinese"
          "温柔的女声" none true (fun _ => none)).1 = .error (.valueError m))
      ∧ (Client.generate_audio (.response 200 (.complete "abc")) 3 "" "Chinese"
          "温柔的女声" none true (fun _ => none)).2.1 = false) :=
  ⟨Or.inl rfl,
    generate_audio_empty_input_validates (.response 200 (.complete "abc")) 3 "" "Chinese"
      "温柔的女声" none true (fun _ => none) (Or.inl rfl)⟩

/-! ### C9: whitespace-only text or instruct behaves like the empty string -/

/-- C9: a non-empty but all-whitespace `text` (resp. `instruct`) makes
`generate_audio` raise exactly the validation error raised for the empty
string (`text.strip()` is used, not `text`), and no HTTP POST is issued. -/
theorem generate_audio_whitespace_input_validates (net : NetOutcome)
    (now : Nat) (text language instruct : String)
    (output_file : Option String) (auto_timestamp : Bool) (fs : FS) :
    (text ≠ "" → text.data.all pyIsSpace = true →
      (Client.generate_audio net now text language instruct output_file
          auto_timestamp fs).1
        = (Client.generate_audio net now "" language instruct output_file
          auto_timestamp fs).1
      ∧ (Client.generate_audio net now text language instruct output_file
          auto_timestamp fs).1 = .error (.valueError "文本内容不能为空")
      ∧ (Client.generate_audio net now text language instruct output_file
          auto_timestamp fs).2.1 = false)
    ∧ (instruct ≠ "" → instruct.data.all pyIsSpace = true →
      (Client.generate_audio net now text language instruct output_file
          auto_timestamp fs).1
        = (Client.generate_audio net now text language "" output_file
          auto_timestamp fs).1
      ∧ (Client.generate_audio net now text language instruct output_file
          auto_timestamp fs).2.1 = false) := by
  constructor
  · intro _ hsp
    have ht : pyStrip text = "" := pyStrip_eq_empty_of_all_space hsp
    unfold Client.generate_audio
    rw [ht]
    exact ⟨rfl, rfl, rfl⟩
  · intro _ hsp
    have hi : pyStrip instruct = "" := pyStrip_eq_empty_of_all_space hsp
    unfold Client.generate_audio
    rw [hi]
    by_cases ht : pyStrip text = ""
    · rw [ht]
      exact ⟨rfl, rfl⟩
    · rw [if_neg ht, if_neg ht]
      exact ⟨rfl, rfl⟩

theorem generate_audio_whitespace_input_validates_witness :
    (("  " : String) ≠ "" ∧ ("  " : String).data.all pyIsSpace = true)
    ∧ ((Client.generate_audio (.response 200 (.complete "abc")) 3 "  " "Chinese"
          "温柔的女声" none true (fun _ => none)).1
        = (Client.generate_audio (.response 200 (.complete "abc")) 3 "" "Chinese"
          "温柔的女声" none true (fun _ => none)).1
      ∧ (Client.generate_audio (.response 200 (.complete "abc")) 3 "  " "Chinese"
          "温柔的女声" none true (fun _ => none)).1
          = .error (.valueError "文本内容不能为空")
      ∧ (Client.generate_audio (.response 200 (.complete "abc")) 3 "  " "Chinese"
          "温柔的女声" none true (fun _ => none)).2.1 = false) :=
  ⟨⟨by decide, by decide⟩,
    (generate_audio_whitespace_input_validates (.response 200 (.complete "abc")) 3 "  "
      "Chinese" "温柔的女声" none true (fun _ => none)).1
      (by decide) (by decide)⟩

/-! ### C6: what a failed request leaves on disk -/

/-- C6 counterexample: a connection failure *during* the body transfer,
after a 200 status has been confirmed, makes `generate_audio` raise (the
mid-stream `RequestException` is re-raised unchanged) — but the output file
has already been opened and now holds the partial bytes: starting from an
empty filesystem, the destination exists with size 2.  So "the request fails
⇒ no output file is created at the destination path" is false of the code:
the file is opened before the body is consumed, not after. -/
theorem generate_audio_midstream_failure_partial_file :
    (Client.generate_audio (.response 200 (.failed "ab" "connection reset"))
        12 "你好" "Chinese" "温柔的女声" (some "o.wav") true
        (fun _ => none)).1 = .error (.requestError "connection reset")
    ∧ (Client.generate_audio (.response 200 (.failed "ab" "connection reset"))
        12 "你好" "Chinese" "温柔的女声" (some "o.wav") true
        (fun _ => none)).2.2 "o.wav" = some 2 := by
  decide

/-- C6 (amended): failures *before* a successful status is confirmed — a
timeout or connection error while connecting / awaiting headers, or an error
status (4xx/5xx) that `raise_for_status` turns into `HTTPError` — make
`generate_audio` raise with the filesystem unchanged: no file is created at
the destination, because the output file is opened for writing only after
`raise_for_status` succeeds.  A transfer failure *mid-body*, after a
successful status, also makes `generate_audio` raise, but the
already-created destination file remains, holding exactly the bytes received
before the failure. -/
theorem generate_audio_request_failure_file_state (net : NetOutcome)
    (now : Nat) (text language instruct : String)
    (output_file : Option String) (auto_timestamp : Bool) (fs : FS) :
    ((net = .timeout ∨ (∃ m, net = .connError m)
        ∨ (∃ s st, net = .response s st ∧ 400 ≤ s ∧ s < 600)) →
      (∃ e, (Client.generate_audio net now text language instruct output_file
          auto_timestamp fs).1 = .error e)
      ∧ (Client.generate_audio net now text language instruct output_file
          auto_timestamp fs).2.2 = fs)
    ∧ (∀ s partialBody m, net = .response s (.failed partialBody m) →
        ¬(400 ≤ s ∧ s < 600) → pyStrip text ≠ "" → pyStrip instruct ≠ "" →
      (Client.generate_audio net now text language instruct output_file
          auto_timestamp fs).1 = .error (.requestError m)
      ∧ (Client.generate_audio net now text language instruct output_file
          auto_timestamp fs).2.2
          (Client.outputPath now auto_timestamp text output_file)
        = some partialBody.length) := by
  constructor
  · intro h
    unfold Client.generate_audio
    split_ifs with h1 h2
    · exact ⟨⟨_, rfl⟩, rfl⟩
    · exact ⟨⟨_, rfl⟩, rfl⟩
    · rcases h with h | ⟨m, h⟩ | ⟨s, st, h, hs1, hs2⟩ <;> subst h
      · exact ⟨⟨_, rfl⟩, rfl⟩
      · exact ⟨⟨_, rfl⟩, rfl⟩
      · have hr : (400 ≤ s && s < 600) = true := by
          simp only [Bool.and_eq_true, decide_eq_true_iff]
          exact ⟨hs1, hs2⟩
        cases st with
        | complete body =>
            by_cases h5 : s = 500 <;> simp [hr, h5]
        | failed partialBody msg =>
            by_cases h5 : s = 500 <;> simp [hr, h5]
  · intro s partialBody m hnet hrange ht hi
    subst hnet
    have hr : (400 ≤ s && s < 600) = false := by
      refine Bool.eq_false_iff.mpr ?_
      intro hc
      refine hrange ?_
      simpa only [Bool.and_eq_true, decide_eq_true_iff] using hc
    constructor
    · simp [Client.generate_audio, ht, hi, hr]
    · simp [Client.generate_audio, ht, hi, hr]

theorem generate_audio_request_failure_file_state_witness :
    ((NetOutcome.response 200 (.failed "ab" "reset")
        = NetOutcome.response 200 (.failed "ab" "reset"))
      ∧ ¬(400 ≤ 200 ∧ 200 < 600)
      ∧ pyStrip "你好" ≠ "" ∧ pyStrip "温柔的女声" ≠ "")
    ∧ ((Client.generate_audio (.response 200 (.failed "ab" "reset")) 12
          "你好" "Chinese" "温柔的女声" (some "p.wav") true
          (fun _ => none)).1 = .error (.requestError "reset")
      ∧ (Client.generate_audio (.response 200 (.failed "ab" "reset")) 12
          "你好" "Chinese" "温柔的女声" (some "p.wav") true
          (fun _ => none)).2.2
          (Client.outputPath 12 true "你好" (some "p.wav"))
        = some ("ab" : String).length) :=
  ⟨⟨rfl, by decide, by decide, by decide⟩,
    (generate_audio_request_failure_file_state
        (.response 200 (.failed "ab" "reset")) 12 "你好" "Chinese"
        "温柔的女声" (some "p.wav") true (fun _ => none)).2 200 "ab" "reset"
      rfl (by decide) (by decide) (by decide)⟩

/-! ### C2: what a successful call guarantees about the output file -/

/-- C2 (amended): a successful `generate_audio` call means the POST yielded a
non-error status, and the returned path now holds a file whose size is the
byte length of the response body.  (The claim's "size strictly greater than
0" does not hold: an empty 200 body yields an existing file of size 0, see
the counterexample.) -/
theorem generate_audio_success_file_size (net : NetOutcome) (now : Nat)
    (text language instruct : String) (output_file : Option String)
    (auto_timestamp : Bool) (fs : FS) (p : String)
    (h : (Client.generate_audio net now text language instruct output_file
        auto_timestamp fs).1 = .ok p) :
    ∃ status body, net = .response status (.complete body)
      ∧ ¬(400 ≤ status ∧ status < 600)
      ∧ (Client.generate_audio net now text language instruct output_file
          auto_timestamp fs).2.2 p = some body.length := by
  by_cases h1 : pyStrip text = ""
  · exact absurd h (by simp [Client.generate_audio, h1])
  by_cases h2 : pyStrip instruct = ""
  · exact absurd h (by simp [Client.generate_audio, h1, h2])
  cases net with
  | timeout => exact absurd h (by simp [Client.generate_audio, h1, h2])
  | connError m => exact absurd h (by simp [Client.generate_audio, h1, h2])
  | response s st =>
      cases st with
      | failed partialBody msg =>
          exfalso
          by_cases hr : (400 ≤ s && s < 600) = true
          · by_cases h5 : s = 500 <;>
              simp [Client.generate_audio, h1, h2, hr, h5] at h
          · simp [Client.generate_audio, h1, h2, hr] at h
      | complete b =>
          by_cases hr : (400 ≤ s && s < 600) = true
          · exfalso
            by_cases h5 : s = 500 <;>
              simp [Client.generate_audio, h1, h2, hr, h5] at h
          · refine ⟨s, b, rfl, ?_, ?_⟩
            · rintro ⟨a, c⟩
              refine hr ?_
              simp only [Bool.and_eq_true, decide_eq_true_iff]
              exact ⟨a, c⟩
            · simp only [Client.generate_audio, h1, h2, hr] at h ⊢
              simp only [if_neg h1, if_neg h2, Bool.false_eq_true, if_false,
                Except.ok.injEq] at h
              subst h
              simp

theorem generate_audio_success_file_size_witness :
    ((Client.generate_audio (.response 200 (.complete "abc")) 12 "你好" "Chinese"
        "温柔的女声" (some "o.wav") true (fun _ => none)).1 = .ok "o.wav")
    ∧ (∃ status body,
        (NetOutcome.response 200 (.complete "abc"))
          = NetOutcome.response status (.complete body)
        ∧ ¬(400 ≤ status ∧ status < 600)
        ∧ (Client.generate_audio (.response 200 (.complete "abc")) 12 "你好" "Chinese"
            "温柔的女声" (some "o.wav") true (fun _ => none)).2.2 "o.wav"
          = some body.length) :=
  ⟨by decide,
    generate_audio_success_file_size (.response 200 (.complete "abc")) 12 "你好" "Chinese"
      "温柔的女声" (some "o.wav") true (fun _ => none) "o.wav" (by decide)⟩

/-- C2 counterexample: with a 200 response whose body is empty,
`generate_audio` completes successfully and the file at the returned path has
size 0, not size > 0. -/
theorem generate_audio_success_zero_size :
    (Client.generate_audio (.response 200 (.complete "")) 12 "你好" "Chinese" "温柔的女声"
        (some "o.wav") true (fun _ => none)).1 = .ok "o.wav"
    ∧ (Client.generate_audio (.response 200 (.complete "")) 12 "你好" "Chinese"
        "温柔的女声" (some "o.wav") true (fun _ => none)).2.2 "o.wav"
      = some 0 := by
  decide

/-! ### C4: translation of HTTP error statuses -/

/-- C4 counterexample: 300 is a non-2xx status, yet `generate_audio` does not
re-raise any `HTTPError` for it — `raise_for_status` raises only for 4xx/5xx,
so the client treats the 300 response as success and returns the output
path. -/
theorem generate_audio_status_300_not_raised :
    (Client.generate_audio (.response 300 (.complete "x")) 0 "你好" "Chinese" "温柔的女声"
        (some "o.wav") true (fun _ => none)).1 = .ok "o.wav" := by
  decide

/-- C4 (amended): on a final response with an *error* status (4xx/5xx), a 500
is translated into a `ValueError` whose message carries the response body —
hence it contains `X` whenever the body is `"model error: X"` — and any other
error status is re-raised as the original `HTTPError`, unchanged.  Statuses
outside [400, 600) raise nothing (see the counterexample for 300). -/
theorem generate_audio_http_error_translation (net : NetOutcome) (now : Nat)
    (text language instruct : String) (output_file : Option String)
    (auto_timestamp : Bool) (fs : FS) (s : Nat) (b : String)
    (hnet : net = .response s (.complete b))
    (ht : pyStrip text ≠ "") (hi : pyStrip instruct ≠ "") :
    (s = 500 →
      (Client.generate_audio net now text language instruct output_file
          auto_timestamp fs).1
        = .error (.valueError ("音频生成失败: " ++ b))
      ∧ ∀ X, b = "model error: " ++ X →
          containsStr ("音频生成失败: " ++ b) X)
    ∧ (400 ≤ s → s < 600 → s ≠ 500 →
      (Client.generate_audio net now text language instruct output_file
          auto_timestamp fs).1 = .error (.httpError s b)) := by
  subst hnet
  constructor
  · intro h5
    subst h5
    constructor
    · simp [Client.generate_audio, ht, hi]
    · intro X hX
      subst hX
      refine ⟨"音频生成失败: " ++ "model error: ", "", ?_⟩
      rw [String.append_empty, String.append_assoc]
  · intro ha hb h5
    have hr : (400 ≤ s && s < 600) = true := by
      simp only [Bool.and_eq_true, decide_eq_true_iff]
      exact ⟨ha, hb⟩
    simp [Client.generate_audio, BodyStream.text, ht, hi, hr, h5]

theorem generate_audio_http_error_translation_witness :
    ((NetOutcome.response 500 (.complete "model error: boom"))
        = NetOutcome.response 500 (.complete "model error: boom")
      ∧ pyStrip "你好" ≠ "" ∧ pyStrip "温柔的女声" ≠ "")
    ∧ ((500 = 500 →
        (Client.generate_audio (.response 500 (.complete "model error: boom")) 0 "你好"
            "Chinese" "温柔的女声" none true (fun _ => none)).1
          = .error (.valueError ("音频生成失败: " ++ "model error: boom"))
        ∧ ∀ X, "model error: boom" = "model error: " ++ X →
            containsStr ("音频生成失败: " ++ "model error: boom") X)
      ∧ (400 ≤ 500 → 500 < 600 → 500 ≠ 500 →
        (Client.generate_audio (.response 500 (.complete "model error: boom")) 0 "你好"
            "Chinese" "温柔的女声" none true (fun _ => none)).1
          = .error (.httpError 500 "model error: boom"))) :=
  ⟨⟨rfl, by decide, by decide⟩,
    generate_audio_http_error_translation (.response 500 (.complete "model error: boom"))
      0 "你好" "Chinese" "温柔的女声" none true (fun _ => none) 500
      "model error: boom" rfl (by decide) (by decide)⟩

/-! ### C7: the auto-generated filename -/

/-- C7 counterexample: for `text = " a"` the claim's unsanitized prefix
`" a"` is non-empty, so the claim predicts the filename
`"voice_0_ a.wav"`; the code strips whitespace from the sanitized prefix
and actually produces `"voice_0_a.wav"`. -/
theorem generate_audio_default_filename_strip_mismatch :
    (Client.generate_audio (.response 200 (.complete "abc")) 0 " a" "Chinese" "x" none
        true (fun _ => none)).1 = .ok "voice_0_a.wav"
    ∧ Client.claimFilename 0 " a" = "voice_0_ a.wav"
    ∧ "voice_0_a.wav" ≠ "voice_0_ a.wav" := by
  decide

/-- C7 (amended): when `output_file` is omitted (with the default
`auto_timestamp = True`), a successful call returns
`voice_<timestamp>_<st>.wav` where `st` is the first 20 characters of the
text filtered to alphanumeric/space/underscore/hyphen *and then stripped of
leading and trailing whitespace*; when the stripped prefix is empty the
filename is `voice_<timestamp>.wav`. -/
theorem generate_audio_default_filename (net : NetOutcome) (now : Nat)
    (text language instruct : String) (fs : FS) (s : Nat) (b : String)
    (hnet : net = .response s (.complete b)) (hr : ¬(400 ≤ s ∧ s < 600))
    (ht : pyStrip text ≠ "") (hi : pyStrip instruct ≠ "") :
    (Client.generate_audio net now text language instruct none true fs).1 =
      .ok (if pyStrip (String.mk ((text.data.take 20).filter
              Client.sanitizeKeep)) ≠ "" then
            "voice_" ++ toString now ++ "_"
              ++ pyStrip (String.mk ((text.data.take 20).filter
                Client.sanitizeKeep)) ++ ".wav"
          else "voice_" ++ toString now ++ ".wav") := by
  subst hnet
  have hr' : (400 ≤ s && s < 600) = false := by
    refine Bool.eq_false_iff.mpr ?_
    intro hc
    refine hr ?_
    simpa only [Bool.and_eq_true, decide_eq_true_iff] using hc
  simp [Client.generate_audio, Client.outputPath, ht, hi, hr', Client.defaultFilename,
    Client.safeText]

theorem generate_audio_default_filename_witness :
    ((NetOutcome.response 200 (.complete "abc")) = NetOutcome.response 200 (.complete "abc")
      ∧ ¬(400 ≤ 200 ∧ 200 < 600)
      ∧ pyStrip " hi there " ≠ "" ∧ pyStrip "温柔的女声" ≠ "")
    ∧ (Client.generate_audio (.response 200 (.complete "abc")) 5 " hi there " "Chinese"
        "温柔的女声" none true (fun _ => none)).1 =
      .ok (if pyStrip (String.mk ((" hi there ".data.take 20).filter
              Client.sanitizeKeep)) ≠ "" then
            "voice_" ++ toString 5 ++ "_"
              ++ pyStrip (String.mk ((" hi there ".data.take 20).filter
                Client.sanitizeKeep)) ++ ".wav"
          else "voice_" ++ toString 5 ++ ".wav") :=
  ⟨⟨rfl, by decide, by decide, by decide⟩,
    generate_audio_default_filename (.response 200 (.complete "abc")) 5 " hi there "
      "Chinese" "温柔的女声" (fun _ => none) 200 "abc" rfl (by decide)
      (by decide) (by decide)⟩

/-! ### C5: the server responds 500 with the underlying message on failure -/

/-- C5: for every `POST /generate_audio` request, if the model handle is not
initialized or the model invocation raises, the endpoint responds with HTTP
500 and the underlying exception's message appears in the response body
(the `detail` of the `HTTPException`). -/
theorem server_generate_audio_failure_500 (modelLoaded : Bool)
    (invoke : String → String → String → Except String (List Nat))
    (text language instruct : String)
    (h : modelLoaded = false
      ∨ ∃ msg, invoke text language instruct = .error msg) :
    ∃ detail,
      Server.generate_audio modelLoaded invoke text language instruct
        = .error 500 detail
      ∧ (modelLoaded = false → containsStr detail "模型未加载")
      ∧ (∀ msg, modelLoaded = true →
          invoke text language instruct = .error msg →
          containsStr detail msg) := by
  cases modelLoaded with
  | false =>
      refine ⟨"音频生成失败: " ++ Server.strHTTPException 500 "模型未加载",
        rfl, ?_, ?_⟩
      · intro _
        exact ⟨"音频生成失败: 500: ", "", by decide⟩
      · intro msg hml
        exact absurd hml (by decide)
  | true =>
      rcases h with h | ⟨msg, hmsg⟩
      · exact absurd h (by decide)
      · refine ⟨"音频生成失败: " ++ msg, ?_, ?_, ?_⟩
        · simp [Server.generate_audio, hmsg]
        · intro hf
          exact absurd hf (by decide)
        · intro msg' _ hmsg'
          rw [hmsg] at hmsg'
          obtain rfl : msg = msg' := Except.error.inj hmsg'
          refine ⟨"音频生成失败: ", "", ?_⟩
          rw [String.append_empty]

theorem server_generate_audio_failure_500_witness :
    ((false = false)
      ∨ ∃ msg, (fun _ _ _ => Except.ok [1] :
          String → String → String → Except String (List Nat)) "你好"
          "Chinese" "温柔的女声" = .error msg)
    ∧ ∃ detail,
        Server.generate_audio false (fun _ _ _ => .ok [1]) "你好" "Chinese"
            "温柔的女声"
          = .error 500 detail
        ∧ (false = false → containsStr detail "模型未加载")
        ∧ (∀ msg, false = true →
            (fun _ _ _ => Except.ok [1] :
              String → String → String → Except String (List Nat)) "你好"
              "Chinese" "温柔的女声" = .error msg →
            containsStr detail msg) :=
  ⟨Or.inl rfl,
    server_generate_audio_failure_500 false (fun _ _ _ => .ok [1]) "你好"
      "Chinese" "温柔的女声" (Or.inl rfl)⟩

/-! ### C8: list_audio_files returns exactly the allow-listed files, sorted -/

/-- C8: `list_audio_files` returns exactly the paths of the regular files
among the directory's direct children whose extension (the final component's
`Path.suffix`, case-folded) is in the allow-list
{wav, mp3, flac, ogg, m4a}, sorted lexicographically ascending.
Subdirectories are excluded by the `is_file()` test, and deeper descendants
never appear because `glob("*")` yields direct children only (the `entries`
of the embedding). -/
theorem list_audio_files_spec (entries : List Client.FSEntry) :
    List.Sorted (· ≤ ·) (Client.list_audio_files entries)
    ∧ ∀ p, p ∈ Client.list_audio_files entries ↔
        ∃ e ∈ entries, e.path = p ∧ e.isFile = true
          ∧ pyLower (pySuffix p) ∈ Client.audioExtensions := by
  constructor
  · exact List.sorted_insertionSort _ _
  · intro p
    unfold Client.list_audio_files
    rw [List.mem_insertionSort]
    simp only [List.mem_map, List.mem_filter, Bool.and_eq_true,
      decide_eq_true_iff]
    constructor
    · rintro ⟨e, ⟨he, hf, hx⟩, rfl⟩
      exact ⟨e, he, rfl, hf, hx⟩
    · rintro ⟨e, he, rfl, hf, hx⟩
      exact ⟨e, ⟨he, hf, hx⟩, rfl⟩

/-! ### C10: extension matching is case-insensitive -/

/-- C10: `list_audio_files` matches extensions case-insensitively — a
regular-file entry whose `Path.suffix` lower-cases into the allow-list (for
example `".WAV"` or `".Mp3"`) is included in the result. -/
theorem list_audio_files_case_insensitive (entries : List Client.FSEntry)
    (e : Client.FSEntry) (v : String) (he : e ∈ entries)
    (hf : e.isFile = true) (hv : pySuffix e.path = v)
    (hlow : pyLower v ∈ Client.audioExtensions) :
    e.path ∈ Client.list_audio_files entries := by
  unfold Client.list_audio_files
  rw [List.mem_insertionSort]
  refine List.mem_map.mpr ⟨e, List.mem_filter.mpr ⟨he, ?_⟩, rfl⟩
  simp only [Bool.and_eq_true, decide_eq_true_iff]
  refine ⟨hf, ?_⟩
  rw [hv]
  exact hlow

theorem list_audio_files_case_insensitive_witness :
    ((⟨"a.WAV", true⟩ : Client.FSEntry)
        ∈ [(⟨"a.WAV", true⟩ : Client.FSEntry), ⟨"b.Mp3", true⟩]
      ∧ (⟨"a.WAV", true⟩ : Client.FSEntry).isFile = true
      ∧ pySuffix (⟨"a.WAV", true⟩ : Client.FSEntry).path = ".WAV"
      ∧ pyLower ".WAV" ∈ Client.audioExtensions)
    ∧ (⟨"a.WAV", true⟩ : Client.FSEntry).path
        ∈ Client.list_audio_files [⟨"a.WAV", true⟩, ⟨"b.Mp3", true⟩] :=
  ⟨⟨by decide, by decide, by decide, by decide⟩,
    list_audio_files_case_insensitive [⟨"a.WAV", true⟩, ⟨"b.Mp3", true⟩]
      ⟨"a.WAV", true⟩ ".WAV" (by decide) (by decide) (by decide) (by decide)⟩

/-! ### C1: the batch results mapping -/

theorem generate_audio_fst_fs_indep (net : NetOutcome) (now : Nat)
    (text language instruct : String) (output_file : Option String)
    (auto_timestamp : Bool) (fs fs2 : FS) :
    (Client.generate_audio net now text language instruct output_file
        auto_timestamp fs).1
      = (Client.generate_audio net now text language instruct output_file
        auto_timestamp fs2).1 := by
  by_cases h1 : pyStrip text = ""
  · simp [Client.generate_audio, h1]
  by_cases h2 : pyStrip instruct = ""
  · simp [Client.generate_audio, h1, h2]
  cases net with
  | timeout => simp [Client.generate_audio, h1, h2]
  | connError m => simp [Client.generate_audio, h1, h2]
  | response s st =>
      cases st with
      | complete body =>
          by_cases hr : (400 ≤ s && s < 600) = true
          · by_cases h5 : s = 500 <;>
              simp [Client.generate_audio, h1, h2, hr, h5]
          · simp [Client.generate_audio, h1, h2, hr]
      | failed partialBody msg =>
          by_cases hr : (400 ≤ s && s < 600) = true
          · by_cases h5 : s = 500 <;>
              simp [Client.generate_audio, h1, h2, hr, h5]
          · simp [Client.generate_audio, h1, h2, hr]

theorem dictInsert_fresh (d : List (String × String)) (k v : String)
    (h : ∀ p ∈ d, p.1 ≠ k) : Client.dictInsert d k v = d ++ [(k, v)] := by
  have hc : ¬((d.any (fun p => p.1 = k)) = true) := by
    intro hc
    obtain ⟨p, hp, hpk⟩ := List.any_eq_true.mp hc
    exact h p hp (of_decide_eq_true hpk)
  unfold Client.dictInsert
  rw [if_neg hc]

theorem expectedResults_length (nets : Nat → NetOutcome) (nows : Nat → Nat)
    (output_dir : String) (i : Nat) (items : List Client.BatchItem) :
    (Client.expectedResults nets nows output_dir i items).length
      = items.length := by
  induction items generalizing i with
  | nil => rfl
  | cons item rest ih => simp [Client.expectedResults, ih]

theorem batchLoop_spec (nets : Nat → NetOutcome) (nows : Nat → Nat)
    (output_dir : String) (items : List Client.BatchItem) :
    ∀ (i : Nat) (acc : List (String × String)) (fs : FS),
      (∀ p ∈ acc, ∀ item ∈ items, p.1 ≠ Client.batchKey item) →
      (items.map Client.batchKey).Nodup →
      (Client.batchLoop nets nows output_dir i items acc fs).1
        = acc ++ Client.expectedResults nets nows output_dir i items := by
  induction items with
  | nil =>
      intro i acc fs _ _
      simp [Client.batchLoop, Client.expectedResults]
  | cons item rest ih =>
      intro i acc fs havoid hnodup
      rw [List.map_cons, List.nodup_cons] at hnodup
      have hkey : ∀ p ∈ acc, p.1 ≠ Client.batchKey item :=
        fun p hp => havoid p hp item (List.mem_cons_self item rest)
      have hval :
          (match (Client.generate_audio (nets i) (nows i) item.text
              item.language item.instruct
              (Client.itemOutputFile output_dir item) true fs).1 with
            | .ok p => p
            | .error e => "ERROR: " ++ genErrorStr e)
            = Client.itemValue (nets i) (nows i) output_dir item := by
        unfold Client.itemValue
        rw [generate_audio_fst_fs_indep (nets i) (nows i) item.text
          item.language item.instruct (Client.itemOutputFile output_dir item)
          true fs (fun _ => none)]
      have havoid' : ∀ p ∈ acc ++ [(Client.batchKey item,
            Client.itemValue (nets i) (nows i) output_dir item)],
          ∀ it ∈ rest, p.1 ≠ Client.batchKey it := by
        intro p hp it hit
        rcases List.mem_append.mp hp with hp | hp
        · exact havoid p hp it (List.mem_cons_of_mem item hit)
        · obtain rfl : p = (Client.batchKey item, _) := List.mem_singleton.mp hp
          intro hcontra
          have heq : Client.batchKey item = Client.batchKey it := hcontra
          refine hnodup.1 ?_
          rw [heq]
          exact List.mem_map_of_mem Client.batchKey hit
      simp only [Client.batchLoop]
      rw [hval, dictInsert_fresh acc _ _ hkey,
        ih (i + 1) _ _ havoid' hnodup.2]
      simp [Client.expectedResults, List.append_assoc]

/-- C1 (amended): `batch_generate` records each item's outcome under the key
`text[:30] + "..."`; when those keys are pairwise distinct the returned
mapping has exactly N entries — the i-th entry being the i-th item's key with
that item's own outcome (an `"ERROR: ..."`-tagged value when its generation
failed, see `Client.itemValue`); every item is processed regardless of
earlier failures.  (As literally stated the claim is false: duplicate keys
collapse, see the counterexample.) -/
theorem batch_generate_distinct_keys (nets : Nat → NetOutcome)
    (nows : Nat → Nat) (items : List Client.BatchItem) (output_dir : String)
    (fs : FS) (h : (items.map Client.batchKey).Nodup) :
    (Client.batch_generate nets nows items output_dir fs).1
      = Client.expectedResults nets nows output_dir 0 items
    ∧ (Client.batch_generate nets nows items output_dir fs).1.length
      = items.length := by
  have hmain := batchLoop_spec nets nows output_dir items 0 [] fs
    (by simp) h
  unfold Client.batch_generate
  rw [hmain, List.nil_append]
  exact ⟨rfl, expectedResults_length nets nows output_dir 0 items⟩

theorem batch_generate_distinct_keys_witness :
    (([⟨"a", "Chinese", "温柔的女声", none⟩,
        (⟨"b", "Chinese", "温柔的女声", none⟩ : Client.BatchItem)].map
      Client.batchKey).Nodup)
    ∧ ((Client.batch_generate (fun _ => .timeout) (fun _ => 0)
          [⟨"a", "Chinese", "温柔的女声", none⟩,
            ⟨"b", "Chinese", "温柔的女声", none⟩] "out" (fun _ => none)).1
        = Client.expectedResults (fun _ => .timeout) (fun _ => 0) "out" 0
            [⟨"a", "Chinese", "温柔的女声", none⟩,
              ⟨"b", "Chinese", "温柔的女声", none⟩]
      ∧ (Client.batch_generate (fun _ => .timeout) (fun _ => 0)
          [⟨"a", "Chinese", "温柔的女声", none⟩,
            ⟨"b", "Chinese", "温柔的女声", none⟩] "out"
          (fun _ => none)).1.length
        = [(⟨"a", "Chinese", "温柔的女声", none⟩ : Client.BatchItem),
            ⟨"b", "Chinese", "温柔的女声", none⟩].length) :=
  ⟨by decide,
    batch_generate_distinct_keys (fun _ => .timeout) (fun _ => 0)
      [⟨"a", "Chinese", "温柔的女声", none⟩,
        ⟨"b", "Chinese", "温柔的女声", none⟩] "out" (fun _ => none)
      (by decide)⟩

/-- C1 counterexample: two items with the same text collide on the results
key `text[:30] + "..."`, so a batch of 2 items returns a mapping with 1
entry, not 2. -/
theorem batch_generate_key_collision :
    (Client.batch_generate (fun _ => .timeout) (fun _ => 0)
        [⟨"a", "Chinese", "温柔的女声", none⟩,
          ⟨"a", "Chinese", "温柔的女声", none⟩] "out"
        (fun _ => none)).1.length = 1
    ∧ ([(⟨"a", "Chinese", "温柔的女声", none⟩ : Client.BatchItem),
        ⟨"a", "Chinese", "温柔的女声", none⟩]).length = 2 := by
  decide
